import Mathlib

set_option maxRecDepth 100000

/-!
Verification of the GoWebSocket repository: a minimal WebSocket
handshake (server role in `server.go`, client role in the companion
client file) and a single-frame text codec.

The embedding below translates the Go source faithfully:

* Byte streams are modelled as they behave under Go's `bufio.Reader`
  wrapped around an underlying reader: the underlying reader delivers a
  list of chunks (each `Read` call on it returns the next chunk, and
  end of data is reported as an error once the chunks run out), and the
  `bufio.Reader` keeps an internal buffer.  `bufio.Reader.Read` performs
  at most ONE underlying read per call and returns however many bytes it
  can copy from its buffer — it does not loop to fill the caller's
  slice.  This matters because `readTextMessage` in the source ignores
  the byte count returned by `Read`.
* Bytes are natural numbers (values < 256 on real streams); machine
  arithmetic on them uses explicit `&&&` / `%` as in the source.
* Go strings are byte sequences; text payloads are `List Nat`.
-/

namespace GoWebSocket

/-- State of a Go `bufio.Reader`: `buf` is the slice of already-buffered,
not yet consumed bytes (`b.buf[b.r:b.w]`); `chunks` are the byte groups
the underlying reader will deliver on successive `Read` calls (end of
data once they run out); `errPending` records a sticky underlying error
(`b.err`) that has been observed but not yet returned. -/
structure BufReader where
  buf : List Nat
  chunks : List (List Nat)
  errPending : Bool
deriving Repr, DecidableEq

/-- Bytes of the stream not yet consumed: the buffered bytes followed by
everything the underlying reader has yet to deliver. -/
def BufReader.remaining (r : BufReader) : List Nat :=
  r.buf ++ r.chunks.flatten

/-- Model of Go `bufio.Reader.Read` into a slice of length `p` (for
`p` smaller than the internal buffer size, which covers every call the
codec makes: 2- and at-most-127-byte reads against a 4096-byte buffer).
Returns the bytes copied, the new reader state, and whether an error was
returned.  Mirrors the source: a zero-length read returns buffered
status; an empty buffer triggers exactly one underlying read; otherwise
bytes are copied from the buffer, at most `p` of them. -/
def bufRead (p : Nat) (r : BufReader) : List Nat × BufReader × Bool :=
  if p = 0 then
    if r.buf ≠ [] then ([], r, false)
    else ([], { r with errPending := false }, r.errPending)
  else if r.buf = [] then
    if r.errPending then ([], { r with errPending := false }, true)
    else
      match r.chunks with
      | [] => ([], r, true)
      | c :: rest =>
        if c = [] then ([], { r with chunks := rest }, false)
        else (c.take p, { buf := c.drop p, chunks := rest, errPending := false }, false)
  else (r.buf.take p, { r with buf := r.buf.drop p }, false)

/-- Stream delivering the given bytes the way `bufio.NewReader
(bytes.NewReader bs)` does: one underlying read returns everything, and
an empty byte sequence reports end of data immediately. -/
def mkStream (bs : List Nat) : BufReader :=
  ⟨[], if bs = [] then [] else [bs], false⟩

/-- Error string of the continuation-frame check in `readTextMessage`. -/
def errContinuation : String := "Continuation frames are not supported"

/-- Error string of the opcode check in `readTextMessage`. -/
def errFrameType : String := "Only text frames are supported"

/-- Error string of the masking check in `readTextMessage`. -/
def errMasked : String := "Server frames should not be masked"

/-- Error returned when an underlying read reports end of data. -/
def errEOF : String := "EOF"

/-- Result of `make([]byte, n)` after a `Read` call copied `l` into its
front: the copied bytes followed by the untouched zero bytes. -/
def padTo (n : Nat) (l : List Nat) : List Nat :=
  l ++ List.replicate (n - l.length) 0

/-- Model of `readTextMessage` (client file, lines 72–99).  Reads a
2-byte header buffer with a single `Read` call whose count is ignored,
derives `fin`, `opcode`, `masked`, `payloadLen` from the (possibly only
partially overwritten, zero-initialised) header, runs the three header
checks in source order, then reads a `payloadLen`-byte buffer with a
single `Read` call whose count is again ignored, and returns the whole
buffer as the text.  Also returns the reader state, which records how
many stream bytes were consumed. -/
def readTextMessage (r : BufReader) : Except String (List Nat) × BufReader :=
  let hres := bufRead 2 r
  if hres.2.2 then (Except.error errEOF, hres.2.1)
  else
    let header := padTo 2 hres.1
    let h0 := header.getD 0 0
    let h1 := header.getD 1 0
    let fin := h0 &&& 0x80 ≠ 0
    let opcode := h0 &&& 0x0F
    let masked := h1 &&& 0x80 ≠ 0
    let payloadLen := h1 &&& 0x7F
    if ¬ fin then (Except.error errContinuation, hres.2.1)
    else if opcode ≠ 0x1 then (Except.error errFrameType, hres.2.1)
    else if masked then (Except.error errMasked, hres.2.1)
    else
      let pres := bufRead payloadLen hres.2.1
      if pres.2.2 then (Except.error errEOF, pres.2.1)
      else (Except.ok (padTo payloadLen pres.1), pres.2.1)

/-- Outcome of a call to `sendTextMessage`: the error returned (if any)
and the bytes written to the connection. -/
structure SendResult where
  err : Option String
  written : List Nat
deriving Repr, DecidableEq

/-- Model of `sendTextMessage` (server.go, lines 70–84): messages longer
than 125 bytes are rejected before any byte is constructed or written;
otherwise the frame `0x81`, length byte, payload is written and flushed.
`byte(payloadLen)` truncates to a byte, hence the `% 256`. -/
def sendTextMessage (message : List Nat) : SendResult :=
  let payloadLen := message.length
  if payloadLen > 125 then ⟨some "Message too long", []⟩
  else ⟨none, 0x81 :: payloadLen % 256 :: message⟩

/-!
SHA-1 and standard base64, the primitives `computeAcceptKey` uses
(`crypto/sha1` and `encoding/base64.StdEncoding` in the source).
Machine words are naturals reduced modulo `2 ^ 32` where Go's `uint32`
arithmetic wraps.
-/

/-- Reduction modulo `2 ^ 32`, the wrap of Go `uint32` arithmetic. -/
def w32 (n : Nat) : Nat := n % 4294967296

/-- Left rotation of a 32-bit word by `b` bits. -/
def rotl (b n : Nat) : Nat := ((n <<< b) % 4294967296) ||| (n >>> (32 - b))

/-- Big-endian byte expansion of `n` on `k` bytes. -/
def beBytes : Nat → Nat → List Nat
  | 0, _ => []
  | k + 1, n => beBytes k (n / 256) ++ [n % 256]

/-- Grouping of a byte list into big-endian 32-bit words. -/
def toWords : List Nat → List Nat
  | a :: b :: c :: d :: rest => (((a * 256 + b) * 256 + c) * 256 + d) :: toWords rest
  | _ => []

/-- SHA-1 padding: a `0x80` byte, zero bytes up to 56 modulo 64, then
the bit length on 8 big-endian bytes. -/
def sha1Pad (msg : List Nat) : List Nat :=
  msg ++ 0x80 :: List.replicate ((119 - msg.length % 64) % 64) 0 ++ beBytes 8 (8 * msg.length)

/-- Fuel-driven split into 64-byte blocks. -/
def chunksAux : Nat → List Nat → List (List Nat)
  | 0, _ => []
  | _, [] => []
  | fuel + 1, l => l.take 64 :: chunksAux fuel (l.drop 64)

/-- Split of a byte list into successive 64-byte blocks. -/
def chunks64 (l : List Nat) : List (List Nat) := chunksAux (l.length + 1) l

/-- Message-schedule expansion of a 16-word block to 80 words. -/
def extendWords (ws : List Nat) : List Nat :=
  (List.range 64).foldl
    (fun acc _ =>
      let n := acc.length
      acc ++ [rotl 1 (acc.getD (n - 3) 0 ^^^ acc.getD (n - 8) 0 ^^^
        acc.getD (n - 14) 0 ^^^ acc.getD (n - 16) 0)])
    ws

/-- Round function of SHA-1 (bitwise complement is xor with the all-ones
32-bit word). -/
def sha1F (i b c d : Nat) : Nat :=
  if i < 20 then (b &&& c) ||| ((b ^^^ 0xFFFFFFFF) &&& d)
  else if i < 40 then b ^^^ c ^^^ d
  else if i < 60 then (b &&& c) ||| (b &&& d) ||| (c &&& d)
  else b ^^^ c ^^^ d

/-- Round constants of SHA-1. -/
def sha1K (i : Nat) : Nat :=
  if i < 20 then 0x5A827999
  else if i < 40 then 0x6ED9EBA1
  else if i < 60 then 0x8F1BBCDC
  else 0xCA62C1D6

/-- One SHA-1 round on the five-word state. -/
def sha1Round (ws : List Nat) (st : Nat × Nat × Nat × Nat × Nat) (i : Nat) :
    Nat × Nat × Nat × Nat × Nat :=
  let a := st.1
  let b := st.2.1
  let c := st.2.2.1
  let d := st.2.2.2.1
  let e := st.2.2.2.2
  (w32 (rotl 5 a + sha1F i b c d + e + sha1K i + ws.getD i 0), a, rotl 30 b, c, d)

/-- Compression of one 64-byte block into the running state. -/
def sha1Block (h : Nat × Nat × Nat × Nat × Nat) (block : List Nat) :
    Nat × Nat × Nat × Nat × Nat :=
  let ws := extendWords (toWords block)
  let f := (List.range 80).foldl (sha1Round ws) h
  (w32 (h.1 + f.1), w32 (h.2.1 + f.2.1), w32 (h.2.2.1 + f.2.2.1),
    w32 (h.2.2.2.1 + f.2.2.2.1), w32 (h.2.2.2.2 + f.2.2.2.2))

/-- SHA-1 digest of a byte sequence, as its 20 digest bytes. -/
def sha1 (msg : List Nat) : List Nat :=
  let h := (chunks64 (sha1Pad msg)).foldl sha1Block
    (0x67452301, 0xEFCDAB89, 0x98BADCFE, 0x10325476, 0xC3D2E1F0)
  beBytes 4 h.1 ++ beBytes 4 h.2.1 ++ beBytes 4 h.2.2.1 ++
    beBytes 4 h.2.2.2.1 ++ beBytes 4 h.2.2.2.2

/-- UTF-8 encoding of one code point, the byte expansion Go applies in a
`[]byte(s)` conversion. -/
def utf8EncodeChar (n : Nat) : List Nat :=
  if n < 0x80 then [n]
  else if n < 0x800 then [0xC0 ||| (n >>> 6), 0x80 ||| (n &&& 0x3F)]
  else if n < 0x10000 then
    [0xE0 ||| (n >>> 12), 0x80 ||| ((n >>> 6) &&& 0x3F), 0x80 ||| (n &&& 0x3F)]
  else
    [0xF0 ||| (n >>> 18), 0x80 ||| ((n >>> 12) &&& 0x3F),
      0x80 ||| ((n >>> 6) &&& 0x3F), 0x80 ||| (n &&& 0x3F)]

/-- Byte sequence of a Go string (`[]byte(s)`: the UTF-8 bytes). -/
def strBytes (s : String) : List Nat :=
  (s.data.map (fun c => utf8EncodeChar c.toNat)).flatten

/-- Alphabet of `base64.StdEncoding`. -/
def b64Alphabet : String :=
  "ABCDEFGHIJKLMNOPQRSTUVWXYZabcdefghijklmnopqrstuvwxyz0123456789+/"

/-- Character of the standard base64 alphabet at index `n < 64`. -/
def b64Char (n : Nat) : Char := b64Alphabet.data.getD n 'A'

/-- Standard base64 groups of four output characters, with `=` padding
on a trailing group of one or two input bytes. -/
def b64Chunks : List Nat → List Char
  | a :: b :: c :: rest =>
    let n := (a * 256 + b) * 256 + c
    b64Char (n / 262144) :: b64Char (n / 4096 % 64) :: b64Char (n / 64 % 64) ::
      b64Char (n % 64) :: b64Chunks rest
  | [a, b] =>
    let n := (a * 256 + b) * 256
    [b64Char (n / 262144), b64Char (n / 4096 % 64), b64Char (n / 64 % 64), '=']
  | [a] =>
    let n := a * 65536
    [b64Char (n / 262144), b64Char (n / 4096 % 64), '=', '=']
  | [] => []

/-- Model of `base64.StdEncoding.EncodeToString`. -/
def base64Encode (bs : List Nat) : String := String.mk (b64Chunks bs)

/-- Fixed protocol constant of the accept-key derivation (server.go,
line 12 and the local copy on line 15). -/
def magicString : String := "258EAFA5-E914-47DA-95CA-C5AB0DC85B11"

/-- Model of `computeAcceptKey` (server.go, lines 14–19): SHA-1 of the
key concatenated with the magic string, base64 encoded.  A pure function
of its argument, like the source, which touches no state outside the
fresh local `sha1.New()` hasher. -/
def computeAcceptKey (secWebSocketKey : String) : String :=
  base64Encode (sha1 (strBytes (secWebSocketKey ++ magicString)))

/-!
Model of the responder (`wsHandler`).  The `net/http` response writer is
embedded as explicit state: a header map, a written-status flag (Go's
`WriteHeader` only takes effect the first time it is called; later calls
are superfluous and ignored), the status, and the accumulated body.
`http.Error` is translated from its source: it sets two content-type
headers, calls `WriteHeader` with the given code, and appends the
message and a newline to the body.  Hijackability of the underlying
transport is an explicit parameter.
-/

/-- State of an `http.ResponseWriter` as `wsHandler` observes it. -/
structure ResponseState where
  headers : List (String × String)
  wroteHeader : Bool
  status : Nat
  body : String
deriving Repr, DecidableEq

/-- Model of `http.Header.Set`: replace the value under a key, or append
the pair when the key is absent. -/
def headerSet (hs : List (String × String)) (k v : String) : List (String × String) :=
  if hs.any (fun p => p.1 = k) then hs.map (fun p => if p.1 = k then (k, v) else p)
  else hs ++ [(k, v)]

/-- Model of `http.Header.Del`. -/
def headerDel (hs : List (String × String)) (k : String) : List (String × String) :=
  hs.filter (fun p => p.1 ≠ k)

/-- Model of `ResponseWriter.WriteHeader`: the first call fixes the
status; subsequent calls are ignored. -/
def writeHeader (st : ResponseState) (code : Nat) : ResponseState :=
  if st.wroteHeader then st else { st with status := code, wroteHeader := true }

/-- Model of `http.Error`: set `Content-Type` and
`X-Content-Type-Options` (after deleting `Content-Length`), write the
status code, and append the message with a trailing newline
(`fmt.Fprintln`). -/
def httpError (st : ResponseState) (msg : String) (code : Nat) : ResponseState :=
  let hs := headerSet (headerSet (headerDel st.headers "Content-Length")
    "Content-Type" "text/plain; charset=utf-8") "X-Content-Type-Options" "nosniff"
  let st2 := writeHeader { st with headers := hs } code
  { st2 with body := st2.body ++ msg ++ "\n" }

/-- Response state before the handler runs: no headers, nothing written,
default status 200, empty body. -/
def initialResponse : ResponseState := ⟨[], false, 200, ""⟩

/-- Inbound request as `wsHandler` reads it: the values of
`r.Header.Get` on the three headers it consults (`Get` yields the empty
string for an absent header). -/
structure Request where
  origin : String
  upgrade : String
  secWebSocketKey : String
deriving Repr, DecidableEq

/-- Hijack capability of the transport under the response writer: the
writer may fail the `http.Hijacker` interface assertion, the `Hijack`
call may return an error, or the takeover may succeed. -/
inductive HijackCap where
  | notHijacker : HijackCap
  | hijackFails (msg : String) : HijackCap
  | hijackOk : HijackCap
deriving Repr, DecidableEq

/-- Outcome of `wsHandler`: the final response-writer state and the
bytes written to the hijacked connection. -/
structure HandlerResult where
  response : ResponseState
  frame : List Nat
deriving Repr, DecidableEq

/-- Allowed origin configured in `wsHandler` (server.go, line 23). -/
def allowedOrigin : String := "http://localhost:8080"

/-- Model of `wsHandler` (server.go, lines 21–68): origin check (403),
upgrade check (400), key-presence check (400), accept computation,
upgrade headers and status 101, hijack, and one `sendTextMessage` call
with the fixed text. -/
def wsHandler (req : Request) (hj : HijackCap) : HandlerResult :=
  if req.origin ≠ allowedOrigin then
    ⟨httpError initialResponse "Origin not allowed" 403, []⟩
  else if req.upgrade ≠ "websocket" then
    ⟨httpError initialResponse "Not a valid WebSocket handshake" 400, []⟩
  else if req.secWebSocketKey = "" then
    ⟨httpError initialResponse "Missing Sec-WebSocket-Key" 400, []⟩
  else
    let secWebSocketAccept := computeAcceptKey req.secWebSocketKey
    let hs := headerSet (headerSet (headerSet initialResponse.headers
      "Upgrade" "websocket") "Connection" "Upgrade")
      "Sec-WebSocket-Accept" secWebSocketAccept
    let st := writeHeader { initialResponse with headers := hs } 101
    match hj with
    | HijackCap.notHijacker => ⟨httpError st "Hijacking not supported" 500, []⟩
    | HijackCap.hijackFails msg =>
      ⟨httpError st ("Could not hijack connection: " ++ msg) 500, []⟩
    | HijackCap.hijackOk => ⟨st, (sendTextMessage (strBytes "Hello World")).written⟩

example : (readTextMessage (mkStream [0x81, 0x05, 72, 101, 108, 108, 111])).1
    = Except.ok [72, 101, 108, 108, 111] := rfl

example : (readTextMessage (mkStream [0x81, 0x00])).1 = Except.ok [] := rfl

example : (readTextMessage (mkStream [0x81, 0x80, 0, 0, 0, 0])).1
    = Except.error errMasked := rfl

example : (readTextMessage (mkStream [0x00, 0x05, 72, 101, 108, 108, 111])).1
    = Except.error errContinuation := rfl

example : (readTextMessage (mkStream [0x82, 0x05, 72, 101, 108, 108, 111])).1
    = Except.error errFrameType := rfl

example : (readTextMessage (mkStream [0x81, 0x7E, 0x00, 0x7E])).1
    = Except.ok ([0x00, 0x7E] ++ List.replicate 124 0) := rfl

/-!
Helper lemmas shared by the claim theorems.
-/

/-- Reading at most the buffered byte count copies a prefix of the
buffer and touches nothing else. -/
theorem bufRead_of_le (p : Nat) (l : List Nat) (cs : List (List Nat)) (h : p ≤ l.length) :
    bufRead p ⟨l, cs, false⟩ = (l.take p, ⟨l.drop p, cs, false⟩, false) := by
  cases l with
  | nil =>
    have hp : p = 0 := by simpa using h
    subst hp
    rfl
  | cons a t =>
    cases p with
    | zero => rfl
    | succ q => rfl

/-- A byte value of at most 125 has a clear mask bit. -/
theorem land128_of_le (n : Nat) (h : n ≤ 125) : n &&& 128 = 0 := by
  have h126 : n < 126 := by omega
  have hall : ∀ m : Fin 126, (m : Nat) &&& 128 = 0 := by decide
  simpa using hall ⟨n, h126⟩

/-- A byte value of at most 125 equals its own low seven bits. -/
theorem land127_of_le (n : Nat) (h : n ≤ 125) : n &&& 127 = n := by
  have h126 : n < 126 := by omega
  have hall : ∀ m : Fin 126, (m : Nat) &&& 127 = (m : Nat) := by decide
  simpa using hall ⟨n, h126⟩

/-- Evaluation of `readTextMessage` on a stream whose first underlying
read delivers at least the two header bytes: the header checks run on
those two bytes in source order, and the payload is then read from what
remains. -/
theorem readTextMessage_stream_cons (b0 b1 : Nat) (tail : List Nat)
    (more : List (List Nat)) :
    readTextMessage ⟨[], (b0 :: b1 :: tail) :: more, false⟩ =
      if b0 &&& 0x80 = 0 then (Except.error errContinuation, ⟨tail, more, false⟩)
      else if b0 &&& 0x0F ≠ 1 then (Except.error errFrameType, ⟨tail, more, false⟩)
      else if b1 &&& 0x80 ≠ 0 then (Except.error errMasked, ⟨tail, more, false⟩)
      else if (bufRead (b1 &&& 0x7F) ⟨tail, more, false⟩).2.2 then
        (Except.error errEOF, (bufRead (b1 &&& 0x7F) ⟨tail, more, false⟩).2.1)
      else (Except.ok (padTo (b1 &&& 0x7F) (bufRead (b1 &&& 0x7F) ⟨tail, more, false⟩).1),
        (bufRead (b1 &&& 0x7F) ⟨tail, more, false⟩).2.1) := by
  have hb : bufRead 2 ⟨[], (b0 :: b1 :: tail) :: more, false⟩
      = ([b0, b1], ⟨tail, more, false⟩, false) := rfl
  simp only [readTextMessage, hb, padTo, List.length_cons, List.length_nil]
  norm_num [List.getD, not_not]

/-- A single-chunk stream on a nonempty byte sequence. -/
theorem mkStream_cons (b : Nat) (bs : List Nat) :
    mkStream (b :: bs) = ⟨[], [b :: bs], false⟩ := by
  simp [mkStream]

/-- C1: for every key string `k`, `computeAcceptKey k` is the base64
encoding of the SHA-1 hash of `k` concatenated with the fixed constant
"258EAFA5-E914-47DA-95CA-C5AB0DC85B11"; in particular the key
"dGhlIHNhbXBsZSBub25jZQ==" yields "s3pPLMBiTxaQ9kYGzzhZRbK+xOo=".  As a
Lean function of its argument it is pure by construction, matching the
source, which touches no state outside a fresh local hasher. -/
theorem computeAcceptKey_spec :
    (∀ k : String, computeAcceptKey k =
      base64Encode (sha1 (strBytes (k ++ "258EAFA5-E914-47DA-95CA-C5AB0DC85B11")))) ∧
    computeAcceptKey "dGhlIHNhbXBsZSBub25jZQ==" = "s3pPLMBiTxaQ9kYGzzhZRbK+xOo=" :=
  ⟨fun _ => rfl, by decide⟩

/-- C2, code evaluated at the failing inputs: `readTextMessage` has no
check for the extended-length markers 126 and 127 in the length field.
It treats them as literal payload byte counts: on every stream whose
length byte is the marker 126, it reads the next 126 stream bytes as
payload and succeeds; on the repository's own test input
`[0x81, 0x7E, 0x00, 0x7E]` (whose test expects an error) it succeeds
with a garbage 126-byte zero-padded payload, and a marker of 127
behaves likewise. -/
theorem readTextMessage_extended_length_marker :
    (∀ (tail : List Nat) (more : List (List Nat)), 126 ≤ tail.length →
      readTextMessage ⟨[], (0x81 :: 0x7E :: tail) :: more, false⟩ =
        (Except.ok (tail.take 126), ⟨tail.drop 126, more, false⟩)) ∧
    (readTextMessage (mkStream [0x81, 0x7E, 0x00, 0x7E])).1
        = Except.ok ([0x00, 0x7E] ++ List.replicate 124 0) ∧
    (readTextMessage (mkStream [0x81, 0x7F, 0x41])).1
        = Except.ok (0x41 :: List.replicate 126 0) := by
  refine ⟨?_, rfl, rfl⟩
  intro tail more h
  rw [readTextMessage_stream_cons, if_neg (by decide), if_neg (by decide),
    if_neg (by decide)]
  have h126 : (0x7E : Nat) &&& 0x7F = 126 := by decide
  rw [h126, bufRead_of_le 126 tail more h]
  simp [padTo, List.length_take, Nat.min_eq_left h]

/-- Witness of the extended-length evaluation at a 126-byte stream
following the marker. -/
theorem readTextMessage_extended_length_marker_witness :
    readTextMessage ⟨[], [0x81 :: 0x7E :: List.replicate 126 0x42], false⟩ =
      (Except.ok ((List.replicate 126 0x42).take 126),
        ⟨(List.replicate 126 0x42).drop 126, [], false⟩) :=
  readTextMessage_extended_length_marker.1 (List.replicate 126 0x42) [] (by simp)

/-- C3: decoding the bytes produced by unmasked encoding returns the
original text: for every message of byte length at most 125,
`sendTextMessage` succeeds and `readTextMessage`, applied to a stream
holding exactly the written bytes, returns the message with no error. -/
theorem readTextMessage_sendTextMessage_roundtrip :
    ∀ message : List Nat, message.length ≤ 125 →
      (sendTextMessage message).err = none ∧
      (readTextMessage (mkStream (sendTextMessage message).written)).1
        = Except.ok message := by
  intro message h
  have hsend : sendTextMessage message = ⟨none, 0x81 :: message.length :: message⟩ := by
    unfold sendTextMessage
    rw [if_neg (by omega), Nat.mod_eq_of_lt (by omega)]
  refine ⟨by rw [hsend], ?_⟩
  rw [hsend, mkStream_cons, readTextMessage_stream_cons]
  rw [if_neg (by decide), if_neg (by decide),
    if_neg (by simp [land128_of_le message.length h]),
    land127_of_le message.length h,
    bufRead_of_le message.length message [] le_rfl]
  simp [padTo, List.take_length]

/-- Witness of the round-trip claim at the text "Hello". -/
theorem readTextMessage_sendTextMessage_roundtrip_witness :
    (sendTextMessage (strBytes "Hello")).err = none ∧
    (readTextMessage (mkStream (sendTextMessage (strBytes "Hello")).written)).1
      = Except.ok (strBytes "Hello") :=
  readTextMessage_sendTextMessage_roundtrip (strBytes "Hello") (by decide)

/-- C4 counterexample: the frozen claim fails on a stream with at least
2 header bytes when the first read delivers only one of them.  The
chunks `[0x81]` then `[0x80, 0, 0, 0, 0]` form the masked zero-length
frame, whose byte 1 has the mask bit set, yet decoding returns the empty
text with no error instead of the masking-policy error: the ignored read
count leaves the zero-initialised second header byte in place, so the
mask check is bypassed. -/
theorem readTextMessage_masked_chunked_counterexample :
    (readTextMessage ⟨[], [[0x81], [0x80, 0x00, 0x00, 0x00, 0x00]], false⟩).1
        = Except.ok [] ∧
    (readTextMessage ⟨[], [[0x81], [0x80, 0x00, 0x00, 0x00, 0x00]], false⟩).1
        ≠ Except.error errMasked := by
  refine ⟨rfl, ?_⟩
  rw [show (readTextMessage
    ⟨[], [[0x81], [0x80, 0x00, 0x00, 0x00, 0x00]], false⟩).1
      = Except.ok [] from rfl]
  simp

/-- C4 amended: on every stream whose first read delivers at least the
2 header bytes, decoding proceeds past the header exactly when byte 0
has the FIN bit set and the text opcode and byte 1 has a clear mask bit;
otherwise it fails with the continuation error when FIN is clear, with
the frame-type error when the opcode is not text, and with the
masking-policy error when the mask bit is set — in this source order.
Concretely, `[0x81, 0x05, Hello]` decodes to "Hello", `[0x81, 0x00]`
decodes to the empty text with no error, and the masked zero-length
frame fails the masking policy.  (When the first read delivers fewer
than 2 bytes the checks run on a zero-padded header instead, as the
counterexample shows.) -/
theorem readTextMessage_header_validation :
    (∀ (b0 b1 : Nat) (tail : List Nat) (more : List (List Nat)), b0 < 256 → b1 < 256 →
      ((readTextMessage ⟨[], (b0 :: b1 :: tail) :: more, false⟩).1
          = Except.error errContinuation ↔ b0 &&& 0x80 = 0) ∧
      ((readTextMessage ⟨[], (b0 :: b1 :: tail) :: more, false⟩).1
          = Except.error errFrameType
          ↔ (b0 &&& 0x80 ≠ 0 ∧ b0 &&& 0x0F ≠ 1)) ∧
      ((readTextMessage ⟨[], (b0 :: b1 :: tail) :: more, false⟩).1
          = Except.error errMasked
          ↔ (b0 &&& 0x80 ≠ 0 ∧ b0 &&& 0x0F = 1 ∧ b1 &&& 0x80 ≠ 0))) ∧
    (readTextMessage (mkStream [0x81, 0x05, 72, 101, 108, 108, 111])).1
        = Except.ok (strBytes "Hello") ∧
    (readTextMessage (mkStream [0x81, 0x00])).1 = Except.ok [] ∧
    (readTextMessage (mkStream [0x81, 0x80, 0x00, 0x00, 0x00, 0x00])).1
        = Except.error errMasked := by
  refine ⟨?_, rfl, rfl, rfl⟩
  intro b0 b1 tail more _ _
  rw [readTextMessage_stream_cons]
  have hCF : errContinuation ≠ errFrameType := by decide
  have hCM : errContinuation ≠ errMasked := by decide
  have hCE : errEOF ≠ errContinuation := by decide
  have hFM : errFrameType ≠ errMasked := by decide
  have hFE : errEOF ≠ errFrameType := by decide
  have hME : errEOF ≠ errMasked := by decide
  refine ⟨?_, ?_, ?_⟩ <;> split_ifs with hA hB hC <;>
    simp_all [hCF.symm, hCM.symm, hFM.symm, hCF, hCM, hFM, hCE, hFE, hME]

/-- Witness of the header-validation claim at the masked zero-length
frame delivered in one read. -/
theorem readTextMessage_header_validation_witness :
    ((readTextMessage ⟨[], [0x81 :: 0x80 :: [0x00, 0x00, 0x00, 0x00]], false⟩).1
        = Except.error errContinuation ↔ (0x81 : Nat) &&& 0x80 = 0) ∧
    ((readTextMessage ⟨[], [0x81 :: 0x80 :: [0x00, 0x00, 0x00, 0x00]], false⟩).1
        = Except.error errFrameType
        ↔ ((0x81 : Nat) &&& 0x80 ≠ 0 ∧ (0x81 : Nat) &&& 0x0F ≠ 1)) ∧
    ((readTextMessage ⟨[], [0x81 :: 0x80 :: [0x00, 0x00, 0x00, 0x00]], false⟩).1
        = Except.error errMasked
        ↔ ((0x81 : Nat) &&& 0x80 ≠ 0 ∧ (0x81 : Nat) &&& 0x0F = 1
            ∧ (0x80 : Nat) &&& 0x80 ≠ 0)) :=
  readTextMessage_header_validation.1 0x81 0x80 [0x00, 0x00, 0x00, 0x00] []
    (by decide) (by decide)

/-- C7: encoding succeeds on every message of at most 125 bytes, writing
the two header bytes `0x81` and the length (whose mask bit is clear)
followed by the unmodified payload; on every message of 126 bytes or
more it fails with the too-long error having written nothing. -/
theorem sendTextMessage_boundary :
    ∀ message : List Nat,
      (message.length ≤ 125 →
        sendTextMessage message = ⟨none, 0x81 :: message.length :: message⟩ ∧
        message.length &&& 0x80 = 0) ∧
      (126 ≤ message.length →
        sendTextMessage message = ⟨some "Message too long", []⟩) := by
  intro message
  constructor
  · intro h
    refine ⟨?_, land128_of_le _ h⟩
    unfold sendTextMessage
    rw [if_neg (by omega), Nat.mod_eq_of_lt (by omega)]
  · intro h
    unfold sendTextMessage
    rw [if_pos (by omega)]

/-- Witness of the encoding boundary at lengths 125 and 126. -/
theorem sendTextMessage_boundary_witness :
    (sendTextMessage (List.replicate 125 0x61)
        = ⟨none, 0x81 :: (List.replicate 125 0x61).length :: List.replicate 125 0x61⟩ ∧
      (List.replicate 125 0x61).length &&& 0x80 = 0) ∧
    sendTextMessage (List.replicate 126 0x61) = ⟨some "Message too long", []⟩ :=
  ⟨(sendTextMessage_boundary (List.replicate 125 0x61)).1 (by simp),
    (sendTextMessage_boundary (List.replicate 126 0x61)).2 (by simp)⟩

/-- C8 counterexample: when the underlying stream delivers its bytes in
chunks (first read yields only the byte `0x81`), the single `Read` call
leaves the second header byte at its zero initialisation, so the frame
`0x81 0x05 Hello` decodes to the empty text with no error instead of the
five declared payload bytes — the code does not loop to obtain the
requested byte counts. -/
theorem readTextMessage_chunked_counterexample :
    readTextMessage ⟨[], [[0x81], [0x05, 72, 101, 108, 108, 111]], false⟩
        = (Except.ok [], ⟨[], [[0x05, 72, 101, 108, 108, 111]], false⟩) ∧
    (Except.ok ([] : List Nat) : Except String (List Nat))
      ≠ Except.ok (strBytes "Hello") := by
  refine ⟨rfl, ?_⟩
  simp only [ne_eq, Except.ok.injEq]
  decide

/-- C8 amended: when the stream delivers its bytes in a single read and
holds at least the declared payload length past the header, decoding
consumes exactly the 2 header bytes and then exactly `payloadLen`
payload bytes, and returns exactly those payload bytes, unpadded. -/
theorem readTextMessage_single_read_exact :
    ∀ (b0 b1 : Nat) (tail : List Nat) (more : List (List Nat)),
      b0 &&& 0x80 ≠ 0 → b0 &&& 0x0F = 1 → b1 &&& 0x80 = 0 →
      b1 &&& 0x7F ≤ tail.length →
      readTextMessage ⟨[], (b0 :: b1 :: tail) :: more, false⟩ =
        (Except.ok (tail.take (b1 &&& 0x7F)), ⟨tail.drop (b1 &&& 0x7F), more, false⟩) := by
  intro b0 b1 tail more hfin hop hmask hlen
  rw [readTextMessage_stream_cons, if_neg hfin, if_neg (by simp [hop]),
    if_neg (by simp [hmask]), bufRead_of_le _ tail more hlen]
  simp [padTo, List.length_take, Nat.min_eq_left hlen]

/-- Witness of the exact single-read decode at the frame for "Hello". -/
theorem readTextMessage_single_read_exact_witness :
    readTextMessage ⟨[], [0x81 :: 0x05 :: [72, 101, 108, 108, 111]], false⟩ =
      (Except.ok ([72, 101, 108, 108, 111].take ((0x05 : Nat) &&& 0x7F)),
        ⟨[72, 101, 108, 108, 111].drop ((0x05 : Nat) &&& 0x7F), [], false⟩) :=
  readTextMessage_single_read_exact 0x81 0x05 [72, 101, 108, 108, 111] []
    (by decide) (by decide) (by decide) (by decide)

/-- C10 counterexample: on a stream whose first read delivers a single
byte, a header-check failure (FIN clear) is reported after consuming
only 1 byte of the stream, not 2 — the second stream byte is still
unconsumed. -/
theorem readTextMessage_header_error_chunked_counterexample :
    (readTextMessage ⟨[], [[0x00], [0x01]], false⟩).1 = Except.error errContinuation ∧
    ((readTextMessage ⟨[], [[0x00], [0x01]], false⟩).2).remaining = [0x01] ∧
    ([0x01] : List Nat) ≠ [] :=
  ⟨rfl, rfl, by decide⟩

/-- C10 amended: on a stream whose first read delivers at least the 2
header bytes, every header-check failure is reported having consumed
exactly those 2 bytes: the final reader state holds the rest of the
stream untouched, and the error is one of the three header errors. -/
theorem readTextMessage_header_error_consumes_two :
    ∀ (b0 b1 : Nat) (tail : List Nat) (more : List (List Nat)),
      b0 < 256 → b1 < 256 →
      (b0 &&& 0x80 = 0 ∨ b0 &&& 0x0F ≠ 1 ∨ b1 &&& 0x80 ≠ 0) →
      (readTextMessage ⟨[], (b0 :: b1 :: tail) :: more, false⟩).2
          = ⟨tail, more, false⟩ ∧
      (∃ e, (readTextMessage ⟨[], (b0 :: b1 :: tail) :: more, false⟩).1
            = Except.error e ∧
          (e = errContinuation ∨ e = errFrameType ∨ e = errMasked)) := by
  intro b0 b1 tail more _ _ hbad
  rw [readTextMessage_stream_cons]
  by_cases hA : b0 &&& 0x80 = 0
  · rw [if_pos hA]
    exact ⟨rfl, errContinuation, rfl, Or.inl rfl⟩
  · rw [if_neg hA]
    by_cases hB : b0 &&& 0x0F ≠ 1
    · rw [if_pos hB]
      exact ⟨rfl, errFrameType, rfl, Or.inr (Or.inl rfl)⟩
    · rw [if_neg hB]
      have hC : b1 &&& 0x80 ≠ 0 := by tauto
      rw [if_pos hC]
      exact ⟨rfl, errMasked, rfl, Or.inr (Or.inr rfl)⟩

/-- Witness of the header-error consumption bound at a masked frame. -/
theorem readTextMessage_header_error_consumes_two_witness :
    (readTextMessage ⟨[], [0x81 :: 0x80 :: [0x00, 0x00, 0x00, 0x00]], false⟩).2
        = ⟨[0x00, 0x00, 0x00, 0x00], [], false⟩ ∧
    (∃ e, (readTextMessage ⟨[], [0x81 :: 0x80 :: [0x00, 0x00, 0x00, 0x00]], false⟩).1
          = Except.error e ∧
        (e = errContinuation ∨ e = errFrameType ∨ e = errMasked)) :=
  readTextMessage_header_error_consumes_two 0x81 0x80 [0x00, 0x00, 0x00, 0x00] []
    (by decide) (by decide) (Or.inr (Or.inr (by decide)))

/-- C5: every request whose Origin header differs from the configured
allowed origin is answered with status 403 and the body "Origin not
allowed" (with the newline `http.Error` appends), regardless of the
transport's hijack capability; the full handler outcome is the 403
rejection — no upgrade header is set, no accept value computed, and no
frame byte is written. -/
theorem wsHandler_origin_rejected :
    ∀ (req : Request) (hj : HijackCap), req.origin ≠ allowedOrigin →
      wsHandler req hj =
        ⟨⟨[("Content-Type", "text/plain; charset=utf-8"),
            ("X-Content-Type-Options", "nosniff")], true, 403,
          "Origin not allowed" ++ "\n"⟩, []⟩ := by
  intro req hj h
  unfold wsHandler
  rw [if_pos h]
  rfl

/-- Witness of the origin rejection at a disallowed origin. -/
theorem wsHandler_origin_rejected_witness :
    wsHandler ⟨"http://example.com", "websocket", "dGhlIHNhbXBsZSBub25jZQ=="⟩
        HijackCap.hijackOk =
      ⟨⟨[("Content-Type", "text/plain; charset=utf-8"),
          ("X-Content-Type-Options", "nosniff")], true, 403,
        "Origin not allowed" ++ "\n"⟩, []⟩ :=
  wsHandler_origin_rejected
    ⟨"http://example.com", "websocket", "dGhlIHNhbXBsZSBub25jZQ=="⟩
    HijackCap.hijackOk (by decide)

/-- C6: every request with the allowed origin, Upgrade header
"websocket" and a non-empty key, handled on a hijackable transport, is
answered with status 101, headers Upgrade/Connection/Sec-WebSocket-Accept
(the latter `computeAcceptKey` of the supplied key) and an empty body,
and exactly one unmasked text frame carrying "Hello World" is written,
which the initiator's `readTextMessage` decodes back to "Hello World". -/
theorem wsHandler_success :
    ∀ req : Request, req.origin = allowedOrigin → req.upgrade = "websocket" →
      req.secWebSocketKey ≠ "" →
      wsHandler req HijackCap.hijackOk =
        ⟨⟨[("Upgrade", "websocket"), ("Connection", "Upgrade"),
            ("Sec-WebSocket-Accept", computeAcceptKey req.secWebSocketKey)],
          true, 101, ""⟩,
          0x81 :: 11 :: strBytes "Hello World"⟩ ∧
      (readTextMessage (mkStream (0x81 :: 11 :: strBytes "Hello World"))).1
        = Except.ok (strBytes "Hello World") := by
  intro req h1 h2 h3
  refine ⟨?_, rfl⟩
  unfold wsHandler
  rw [if_neg (by simp [h1]), if_neg (by simp [h2]), if_neg h3]
  rfl

/-- Witness of the success path at the RFC 6455 sample key. -/
theorem wsHandler_success_witness :
    wsHandler ⟨allowedOrigin, "websocket", "dGhlIHNhbXBsZSBub25jZQ=="⟩
        HijackCap.hijackOk =
      ⟨⟨[("Upgrade", "websocket"), ("Connection", "Upgrade"),
          ("Sec-WebSocket-Accept", computeAcceptKey "dGhlIHNhbXBsZSBub25jZQ==")],
        true, 101, ""⟩,
        0x81 :: 11 :: strBytes "Hello World"⟩ ∧
      (readTextMessage (mkStream (0x81 :: 11 :: strBytes "Hello World"))).1
        = Except.ok (strBytes "Hello World") :=
  wsHandler_success ⟨allowedOrigin, "websocket", "dGhlIHNhbXBsZSBub25jZQ=="⟩
    rfl rfl (by decide)

/-- C9, code evaluated at the failing configuration: on a validated
upgrade request whose transport cannot be hijacked (either the writer is
not a hijacker or the hijack call errors), the handler has already
written status 101 before attempting the takeover, so `http.Error`'s
500 is a superfluous `WriteHeader` call and is ignored — the response
status remains 101, not the 500 the spec requires; only the error body
is appended.  No frame bytes are written. -/
theorem wsHandler_hijack_unsupported :
    wsHandler ⟨allowedOrigin, "websocket", "x"⟩ HijackCap.notHijacker =
      ⟨⟨[("Upgrade", "websocket"), ("Connection", "Upgrade"),
          ("Sec-WebSocket-Accept", computeAcceptKey "x"),
          ("Content-Type", "text/plain; charset=utf-8"),
          ("X-Content-Type-Options", "nosniff")], true, 101,
        "Hijacking not supported" ++ "\n"⟩, []⟩ ∧
    (wsHandler ⟨allowedOrigin, "websocket", "x"⟩ HijackCap.notHijacker).response.status
        ≠ 500 ∧
    wsHandler ⟨allowedOrigin, "websocket", "x"⟩ (HijackCap.hijackFails "boom") =
      ⟨⟨[("Upgrade", "websocket"), ("Connection", "Upgrade"),
          ("Sec-WebSocket-Accept", computeAcceptKey "x"),
          ("Content-Type", "text/plain; charset=utf-8"),
          ("X-Content-Type-Options", "nosniff")], true, 101,
        "Could not hijack connection: " ++ "boom" ++ "\n"⟩, []⟩ := by
  refine ⟨rfl, ?_, rfl⟩
  rw [show (wsHandler ⟨allowedOrigin, "websocket", "x"⟩
    HijackCap.notHijacker).response.status = 101 from rfl]
  decide

end GoWebSocket
